import Mathlib

/-!
# The pthread worker message handler (`src/backend/Threads/opencv_js.worker.js`)

A shallow embedding of `this.onmessage`: the worker-local variables are a record,
one message is processed by a pure function that returns the new worker-local
state, the ordered list of effects the handler performed, and how the handler
ended (returned, or threw a value).

Modelling conventions.
* Numbers of the protocol (addresses, ids, sizes, exit codes) are `Int`. The two
  clock readings are `Int` too; only their difference is stored and nothing below
  depends on its arithmetic.
* Functions of the compiled module (`Module['...']`, `PThread.*`) are not part of
  this file of the repository. A call to one of them is recorded as a `call`
  event with its arguments; it is not interpreted, so worker-local variables
  change only through the handler's own assignments. The one call whose result
  the handler inspects, `Module['dynCall_ii'](start_routine, arg)`, gets its
  outcome from the environment (`Env.entry`).
* Before `load` has run, `Module` is `{}` and `PThread` and `HEAPU32` are
  `undefined`: calling a module function or reading a property of `PThread`
  throws a `TypeError`. Once loaded, the module functions are taken to return.
* `Atomics.store(HEAPU32, i, x)` is recorded with the values of `i` and `x`; the
  extent of the heap is not modelled.
* `noExitRuntime` is declared in the file without a value and read at line 182; it
  is a worker-local variable like the others, set or not by the loaded script.
-/

namespace PthreadWorker

/-- JavaScript values the handler passes around or catches. -/
inductive Val where
  | undefined : Val
  | null : Val
  | num (n : Int) : Val
  | str (s : String) : Val
  | exitStatus (status : Int) : Val
  | error (name : String) (message : String) : Val
  | data : Val
  deriving DecidableEq, Repr

/-- How the call `Module['dynCall_ii'](e.data.start_routine, e.data.arg)` ends. -/
inductive Outcome where
  | returns (v : Val) : Outcome
  | throws (e : Val) : Outcome
  deriving DecidableEq, Repr

/-- How the handler itself ends. -/
inductive Completion where
  | returned : Completion
  | threw (e : Val) : Completion
  deriving DecidableEq, Repr

/-- The payload `e.data` of a message. -/
structure Data where
  cmd : String
  target : Option String := none
  time : Int := 0
  threadInfoStruct : Int := 0
  selfThreadId : Int := 0
  parentThreadId : Int := 0
  stackBase : Int := 0
  stackSize : Int := 0
  start_routine : Int := 0
  arg : Int := 0
  DYNAMIC_BASE : Int := 0
  DYNAMICTOP_PTR : Int := 0
  urlIsString : Bool := true
  deriving DecidableEq, Repr

/-- Names of the variables and `Module` fields the handler assigns. -/
inductive Var where
  | threadInfoStruct | selfThreadId | parentThreadId
  | STACK_BASE | STACKTOP | STACK_MAX
  | DYNAMICTOP_PTR | DYNAMIC_BASE
  | performance_now_clock_drift
  | wasmModule | wasmMemory | buffer | PthreadWorkerInit | ENVIRONMENT_IS_PTHREAD
  | Module | PThread | HEAPU32
  deriving DecidableEq, Repr

/-- Functions outside this file that the handler calls. -/
inductive Fn where
  | register_pthread_ptr
  | establishStackSpace
  | establishStackSpaceInJsModule
  | emscripten_tls_init
  | pthread_self
  | dynCall_ii
  | emscripten_futex_wake
  | emscripten_current_thread_process_queued_calls
  | receiveObjectTransfer
  | setThreadStatus
  | threadCancel
  | threadExit
  | importScripts
  | createObjectURL
  | revokeObjectURL
  | cv
  | createStandardStreams
  deriving DecidableEq, Repr

/-- One effect of the handler, in program order. -/
inductive Event where
  | assign (x : Var) (v : Int) : Event
  | assignModule (x : Var) (v : Int) : Event
  | assignHandle (x : Var) : Event
  | call (f : Fn) (args : List Val) : Event
  | atomicsStore (index : Int) (value : Int) : Event
  | postMessage (cmd : String) : Event
  | consoleError (text : String) : Event
  | consoleErrorStack : Event
  | consoleErrorData : Event
  | consoleErrorUncaught (e : Val) : Event
  | consoleErrorStackOf (e : Val) : Event
  deriving DecidableEq, Repr

/-- The fields of the `Module` object the handler writes (`none` is `undefined`). -/
structure ModuleObj where
  STACK_BASE : Option Int := none
  STACKTOP : Option Int := none
  STACK_MAX : Option Int := none
  DYNAMIC_BASE : Option Int := none
  DYNAMICTOP_PTR : Option Int := none
  deriving DecidableEq, Repr

/-- What the handler reads from the `PThread` object of the compiled module. -/
structure PThreadObj where
  thisThreadCancelState : Int := 0
  deriving DecidableEq, Repr

/-- The worker-local variables of the file (lines 11-41). `PThread = none` is the
worker before `load`: `Module` has no module functions and `PThread`, `HEAPU32`
are `undefined`. -/
structure Worker where
  threadInfoStruct : Int := 0
  selfThreadId : Int := 0
  parentThreadId : Int := 0
  STACK_BASE : Int := 0
  STACKTOP : Int := 0
  STACK_MAX : Int := 0
  DYNAMICTOP_PTR : Int := 0
  DYNAMIC_BASE : Int := 0
  noExitRuntime : Bool := false
  performance_now_clock_drift : Int := 0
  Module : ModuleObj := {}
  PThread : Option PThreadObj := none
  deriving DecidableEq, Repr

/-- What the surroundings supply while one message is processed. -/
structure Env where
  now : Int := 0
  pthread_self : Int := 0
  entry : Outcome := Outcome.returns (Val.num 0)
  loadedPThread : PThreadObj := {}
  hasFS : Bool := false
  deriving DecidableEq, Repr

/-- Result of processing one message. -/
structure Result where
  worker : Worker
  trace : List Event
  completion : Completion
  deriving DecidableEq, Repr

/-- JavaScript `ToInt32`. -/
def toInt32 (x : Int) : Int := (x + 2147483648) % 4294967296 - 2147483648

/-- The index expression `(addr) >> 2` into `HEAPU32`. -/
def wordIndex (addr : Int) : Int := toInt32 addr >>> (2 : Nat)

/-- The `TypeError` of calling `undefined` or reading a property of `undefined`. -/
def typeError (what : String) : Val := Val.error "TypeError" what

/-- Lines 54-58: `threadPrintErr`, bound to `err`. -/
def threadPrintErr (args : List String) : List Event :=
  [Event.consoleError (" ".intercalate args), Event.consoleErrorStack]

/-- Lines 94-131: the `load` branch. -/
def loadBranch (w : Worker) (env : Env) (d : Data) : Result :=
  { worker :=
      { w with
        DYNAMIC_BASE := d.DYNAMIC_BASE
        DYNAMICTOP_PTR := d.DYNAMICTOP_PTR
        Module :=
          { w.Module with
            DYNAMIC_BASE := some d.DYNAMIC_BASE
            DYNAMICTOP_PTR := some d.DYNAMICTOP_PTR
            STACKTOP := some 0x7FFFFFFF
            STACK_MAX := some 0x7FFFFFFF }
        PThread := some env.loadedPThread }
    trace :=
      [Event.assign Var.DYNAMIC_BASE d.DYNAMIC_BASE,
       Event.assignModule Var.DYNAMIC_BASE d.DYNAMIC_BASE,
       Event.assign Var.DYNAMICTOP_PTR d.DYNAMICTOP_PTR,
       Event.assignModule Var.DYNAMICTOP_PTR d.DYNAMICTOP_PTR,
       Event.assignModule Var.STACKTOP 0x7FFFFFFF,
       Event.assignModule Var.STACK_MAX 0x7FFFFFFF,
       Event.assignHandle Var.wasmModule,
       Event.assignHandle Var.wasmMemory,
       Event.assignHandle Var.buffer,
       Event.assignHandle Var.PthreadWorkerInit,
       Event.assignHandle Var.ENVIRONMENT_IS_PTHREAD]
      ++ (if d.urlIsString then [Event.call Fn.importScripts []]
          else [Event.call Fn.createObjectURL [], Event.call Fn.importScripts [],
                Event.call Fn.revokeObjectURL []])
      ++ [Event.call Fn.cv [],
          Event.assignHandle Var.Module,
          Event.assignHandle Var.PThread,
          Event.assignHandle Var.HEAPU32]
      ++ (if env.hasFS then [Event.call Fn.createStandardStreams []] else [])
      ++ [Event.postMessage "loaded"]
    completion := Completion.returned }

/-- Lines 135-136: the two assignments of the `run` branch that come before the
first call into the module. -/
def runEnter (w : Worker) (env : Env) (d : Data) : Worker :=
  { w with
    performance_now_clock_drift := env.now - d.time
    threadInfoStruct := d.threadInfoStruct }

/-- Events of lines 135-136. -/
def runEnterTrace (env : Env) (d : Data) : List Event :=
  [Event.assign Var.performance_now_clock_drift (env.now - d.time),
   Event.assign Var.threadInfoStruct d.threadInfoStruct]

/-- Lines 137-154: worker-local state once the stack frame is installed. -/
def runInstall (w : Worker) (env : Env) (d : Data) : Worker :=
  let max := d.stackBase
  let top := d.stackBase + d.stackSize
  { runEnter w env d with
    selfThreadId := d.selfThreadId
    parentThreadId := d.parentThreadId
    STACK_BASE := top
    STACKTOP := top
    STACK_MAX := max
    Module :=
      { w.Module with
        STACK_BASE := some top
        STACKTOP := some top
        STACK_MAX := some max } }

/-- Events of lines 137-154, after those of `runEnterTrace`. -/
def runInstallTrace (env : Env) (d : Data) : List Event :=
  let max := d.stackBase
  let top := d.stackBase + d.stackSize
  [Event.call Fn.register_pthread_ptr [Val.num d.threadInfoStruct, Val.num 0, Val.num 0],
   Event.assign Var.selfThreadId d.selfThreadId,
   Event.assign Var.parentThreadId d.parentThreadId,
   Event.assign Var.STACK_BASE top,
   Event.assignModule Var.STACK_BASE top,
   Event.assign Var.STACKTOP top,
   Event.assignModule Var.STACKTOP top,
   Event.assign Var.STACK_MAX max,
   Event.assignModule Var.STACK_MAX max,
   Event.call Fn.establishStackSpace
     [Val.num d.stackBase, Val.num (d.stackBase + d.stackSize)],
   Event.call Fn.establishStackSpaceInJsModule
     [Val.num d.stackBase, Val.num (d.stackBase + d.stackSize)],
   Event.call Fn.emscripten_tls_init [],
   Event.call Fn.receiveObjectTransfer [Val.data],
   Event.call Fn.pthread_self [],
   Event.call Fn.setThreadStatus [Val.num env.pthread_self, Val.num 1]]

/-- Line 164: the invocation of the thread entry point. -/
def entryCall (d : Data) : Event :=
  Event.call Fn.dynCall_ii [Val.num d.start_routine, Val.num d.arg]

/-- Test `e instanceof Module['ExitStatus']`. -/
def isExitStatus : Val → Bool
  | Val.exitStatus _ => true
  | _ => false

/-- The value stored at line 174: `e.status` for an `ExitStatus`, else `-2`. -/
def exitCodeOf : Val → Int
  | Val.exitStatus s => s
  | _ => -2

/-- Line 182: `if (!noExitRuntime) PThread.threadExit(result);`. -/
def defaultFinalize (w : Worker) (result : Val) : List Event :=
  if w.noExitRuntime then [] else [Event.call Fn.threadExit [result]]

/-- Lines 174-176: the handler's own finalize in the last `else` of the catch. -/
def catchFinalize (w : Worker) (e : Val) : List Event :=
  [Event.atomicsStore (wordIndex (w.threadInfoStruct + 4)) (exitCodeOf e),
   Event.atomicsStore (wordIndex (w.threadInfoStruct + 0)) 1,
   Event.call Fn.emscripten_futex_wake
     [Val.num (w.threadInfoStruct + 0), Val.num 0x7FFFFFFF]]

/-- Lines 156-182: from the entry point's outcome to the end of the `run` branch,
in the worker-local state `w` reached after installation. -/
def runFinish (w : Worker) (o : Outcome) : List Event × Completion :=
  match o with
  | Outcome.returns v => (defaultFinalize w v, Completion.returned)
  | Outcome.throws e =>
    if e = Val.str "Canceled!" then
      ([Event.call Fn.threadCancel []], Completion.returned)
    else if e = Val.str "SimulateInfiniteLoop" ∨ e = Val.str "pthread_exit" then
      ([], Completion.returned)
    else if isExitStatus e then
      (catchFinalize w e ++ defaultFinalize w Val.undefined, Completion.returned)
    else
      (catchFinalize w e, Completion.threw e)

/-- Lines 134-182: the `run` branch. -/
def runBranch (w : Worker) (env : Env) (d : Data) : Result :=
  match w.PThread with
  | none =>
    { worker := runEnter w env d
      trace := runEnterTrace env d
      completion := Completion.threw (typeError "Module.__register_pthread_ptr is not a function") }
  | some _ =>
    let w1 := runInstall w env d
    let fin := runFinish w1 env.entry
    { worker := w1
      trace := runEnterTrace env d ++ runInstallTrace env d ++ entryCall d :: fin.1
      completion := fin.2 }

/-- Lines 132-133: the `objectTransfer` branch. -/
def objectTransferBranch (w : Worker) : Result :=
  match w.PThread with
  | none =>
    { worker := w, trace := []
      completion := Completion.threw (typeError "PThread is undefined") }
  | some _ =>
    { worker := w, trace := [Event.call Fn.receiveObjectTransfer [Val.data]]
      completion := Completion.returned }

/-- Lines 183-186: the `cancel` branch. -/
def cancelBranch (w : Worker) : Result :=
  if w.threadInfoStruct = 0 then
    { worker := w, trace := [], completion := Completion.returned }
  else
    match w.PThread with
    | none =>
      { worker := w, trace := []
        completion := Completion.threw (typeError "PThread is undefined") }
    | some p =>
      if p.thisThreadCancelState = 0 then
        { worker := w, trace := [Event.call Fn.threadCancel []]
          completion := Completion.returned }
      else
        { worker := w, trace := [], completion := Completion.returned }

/-- Lines 189-192: the `processThreadQueue` branch. -/
def processThreadQueueBranch (w : Worker) : Result :=
  if w.threadInfoStruct = 0 then
    { worker := w, trace := [], completion := Completion.returned }
  else
    match w.PThread with
    | none =>
      { worker := w, trace := []
        completion := Completion.threw
          (typeError "Module._emscripten_current_thread_process_queued_calls is not a function") }
    | some _ =>
      { worker := w
        trace := [Event.call Fn.emscripten_current_thread_process_queued_calls []]
        completion := Completion.returned }

/-- Lines 193-196: the final `else`. -/
def unknownBranch (w : Worker) (d : Data) : Result :=
  { worker := w
    trace := threadPrintErr ["worker.js received unknown command " ++ d.cmd]
      ++ [Event.consoleErrorData]
    completion := Completion.returned }

/-- Lines 93-197: the body of the handler's `try`. -/
def dispatch (w : Worker) (env : Env) (d : Data) : Result :=
  if d.cmd = "load" then loadBranch w env d
  else if d.cmd = "objectTransfer" then objectTransferBranch w
  else if d.cmd = "run" then runBranch w env d
  else if d.cmd = "cancel" then cancelBranch w
  else if d.target = some "setimmediate" then
    { worker := w, trace := [], completion := Completion.returned }
  else if d.cmd = "processThreadQueue" then processThreadQueueBranch w
  else unknownBranch w d

/-- Whether a property of the value can be read: `e.stack` throws a `TypeError`
when `e` is `undefined` or `null`, and yields a value (possibly `undefined`)
otherwise. -/
def hasProperties : Val → Bool
  | Val.undefined => false
  | Val.null => false
  | _ => true

/-- Lines 197-201: the outer `catch` for a caught value `e`. Line 198 logs the
value; line 199 logs `e.stack`, which throws a `TypeError` when `e` is `undefined`
or `null`; line 200 throws `e` again. -/
def outerCatch (e : Val) : List Event × Completion :=
  if hasProperties e then
    ([Event.consoleErrorUncaught e, Event.consoleErrorStackOf e], Completion.threw e)
  else
    ([Event.consoleErrorUncaught e],
      Completion.threw (typeError "cannot read property stack of undefined or null"))

/-- Lines 92-202: `this.onmessage`, the `try` body under the outer `catch`. -/
def onmessage (w : Worker) (env : Env) (d : Data) : Result :=
  let r := dispatch w env d
  match r.completion with
  | Completion.returned => r
  | Completion.threw e =>
    { worker := r.worker
      trace := r.trace ++ (outerCatch e).1
      completion := (outerCatch e).2 }

/-- Whether an event finalizes the hosted thread's status: a call of
`PThread.threadExit`, a call of `PThread.threadCancel`, or the wake that closes the
handler's own exit-code store and status store (lines 174-176). -/
def isFinalization : Event → Bool
  | Event.call Fn.threadExit _ => true
  | Event.call Fn.threadCancel _ => true
  | Event.call Fn.emscripten_futex_wake _ => true
  | _ => false

/-- Number of finalizations in an effect trace. -/
def finalizations (t : List Event) : Nat := t.countP isFinalization

/-- Whether an event is a store to the shared heap or a wake issued by the handler
itself. -/
def isOwnSharedEffect : Event → Bool
  | Event.atomicsStore _ _ => true
  | Event.call Fn.emscripten_futex_wake _ => true
  | _ => false

/-- Whether an event is a call of `PThread.threadExit`. -/
def isThreadExitCall : Event → Bool
  | Event.call Fn.threadExit _ => true
  | _ => false

/-- Whether an event installs stack bounds: an assignment of `STACK_BASE`,
`STACKTOP` or `STACK_MAX` (worker-local or on `Module`), or a call of
`establishStackSpace` or `establishStackSpaceInJsModule`. -/
def isStackInstall : Event → Bool
  | Event.assign Var.STACK_BASE _ => true
  | Event.assign Var.STACKTOP _ => true
  | Event.assign Var.STACK_MAX _ => true
  | Event.assignModule Var.STACK_BASE _ => true
  | Event.assignModule Var.STACKTOP _ => true
  | Event.assignModule Var.STACK_MAX _ => true
  | Event.call Fn.establishStackSpace _ => true
  | Event.call Fn.establishStackSpaceInJsModule _ => true
  | _ => false

/-- What follows the entry-point call in the trace of a `run` processed by a loaded
worker: the events of `runFinish`, then the log lines of the outer `catch` when the
branch threw. -/
def runTail (w : Worker) (o : Outcome) : List Event :=
  (runFinish w o).1 ++
    match (runFinish w o).2 with
    | Completion.returned => []
    | Completion.threw e => (outerCatch e).1

/-- How the handler ends a `run` processed by a loaded worker. -/
def runEnd (w : Worker) (o : Outcome) : Completion :=
  match (runFinish w o).2 with
  | Completion.returned => Completion.returned
  | Completion.threw e => (outerCatch e).2

/-- A loaded worker that hosts no thread. -/
def idleWorker : Worker := { PThread := some {} }

/-- A loaded worker that hosts thread 3, whose control block is at 4096. -/
def hostingWorker : Worker :=
  { threadInfoStruct := 4096, selfThreadId := 3, parentThreadId := 1,
    STACK_BASE := 70000, STACKTOP := 70000, STACK_MAX := 60000,
    performance_now_clock_drift := 5, PThread := some {} }

/-- A `run` message: control block at 8192, stack of 4096 bytes based at 1000. -/
def sampleRun : Data :=
  { cmd := "run", time := 3, threadInfoStruct := 8192, selfThreadId := 7,
    parentThreadId := 1, stackBase := 1000, stackSize := 4096,
    start_routine := 11, arg := 22 }

/-- An environment whose entry point ends as `o`. -/
def envWith (o : Outcome) : Env := { now := 10, pthread_self := 8192, entry := o }

/-! ## Shape of a `run` processed by a loaded worker -/

theorem dispatch_run_loaded (w : Worker) (env : Env) (d : Data) (p : PThreadObj)
    (hcmd : d.cmd = "run") (hload : w.PThread = some p) :
    dispatch w env d =
      { worker := runInstall w env d
        trace := runEnterTrace env d ++ runInstallTrace env d ++
          entryCall d :: (runFinish (runInstall w env d) env.entry).1
        completion := (runFinish (runInstall w env d) env.entry).2 } := by
  simp [dispatch, hcmd, runBranch, hload]

theorem dispatch_run_unloaded (w : Worker) (env : Env) (d : Data)
    (hcmd : d.cmd = "run") (hload : w.PThread = none) :
    dispatch w env d =
      { worker := runEnter w env d
        trace := runEnterTrace env d
        completion :=
          Completion.threw (typeError "Module.__register_pthread_ptr is not a function") } := by
  simp [dispatch, hcmd, runBranch, hload]

theorem onmessage_run_loaded (w : Worker) (env : Env) (d : Data) (p : PThreadObj)
    (hcmd : d.cmd = "run") (hload : w.PThread = some p) :
    (onmessage w env d).worker = runInstall w env d
    ∧ (onmessage w env d).trace =
        runEnterTrace env d ++ runInstallTrace env d ++
          entryCall d :: runTail (runInstall w env d) env.entry
    ∧ (onmessage w env d).completion = runEnd (runInstall w env d) env.entry := by
  rw [onmessage, dispatch_run_loaded w env d p hcmd hload]
  cases hfin : (runFinish (runInstall w env d) env.entry).2 <;>
    simp [runTail, runEnd, hfin]

theorem entryCall_not_mem_prologue (env : Env) (d : Data) :
    entryCall d ∉ runEnterTrace env d ++ runInstallTrace env d := by
  simp [entryCall, runEnterTrace, runInstallTrace]

theorem runTail_cases (w : Worker) (o : Outcome) :
    ∀ ev ∈ runTail w o,
      (∃ a, ev = Event.call Fn.threadExit a) ∨ ev = Event.call Fn.threadCancel []
      ∨ (∃ i x, ev = Event.atomicsStore i x)
      ∨ (∃ a, ev = Event.call Fn.emscripten_futex_wake a)
      ∨ (∃ e, ev = Event.consoleErrorUncaught e) ∨ (∃ e, ev = Event.consoleErrorStackOf e) := by
  intro ev hev
  unfold runTail runFinish at hev
  cases o with
  | returns v =>
    by_cases hn : w.noExitRuntime = true <;> simp_all [defaultFinalize]
  | throws e =>
    by_cases h1 : e = Val.str "Canceled!"
    · simp_all
    · by_cases h2 : e = Val.str "SimulateInfiniteLoop" ∨ e = Val.str "pthread_exit"
      · simp_all
      · by_cases h3 : isExitStatus e = true
        · by_cases hn : w.noExitRuntime = true <;>
            simp_all [defaultFinalize, catchFinalize] <;> aesop
        · by_cases hp : hasProperties e = true <;>
            simp_all [catchFinalize, outerCatch] <;> aesop

theorem entryCall_not_mem_runTail (w : Worker) (o : Outcome) (d : Data) :
    entryCall d ∉ runTail w o := by
  intro h
  rcases runTail_cases w o _ h with ⟨a, h⟩ | h | ⟨i, x, h⟩ | ⟨a, h⟩ | ⟨e, h⟩ | ⟨e, h⟩ <;>
    simp [entryCall] at h

theorem runTail_not_stackInstall (w : Worker) (o : Outcome) :
    ∀ ev ∈ runTail w o, isStackInstall ev = false := by
  intro ev h
  rcases runTail_cases w o _ h with ⟨a, h⟩ | h | ⟨i, x, h⟩ | ⟨a, h⟩ | ⟨e, h⟩ | ⟨e, h⟩ <;>
    simp [h, isStackInstall]

theorem finalizations_run_loaded (w : Worker) (env : Env) (d : Data) (p : PThreadObj)
    (hcmd : d.cmd = "run") (hload : w.PThread = some p) :
    finalizations (onmessage w env d).trace =
      finalizations (runTail (runInstall w env d) env.entry) := by
  rw [(onmessage_run_loaded w env d p hcmd hload).2.1]
  simp [finalizations, List.countP_append, List.countP_cons, entryCall, isFinalization,
    runEnterTrace, runInstallTrace]

/-! ## C1 -/

/-- C1, as stated, fails: when the entry point unwinds with 'SimulateInfiniteLoop'
the handler's trace holds no finalization, and when it throws an ExitStatus the
trace holds two (the handler's own store and wake, then `PThread.threadExit`). -/
theorem finalization_count_counterexample :
    finalizations
      (onmessage idleWorker (envWith (Outcome.throws (Val.str "SimulateInfiniteLoop")))
        sampleRun).trace = 0
    ∧ finalizations
      (onmessage idleWorker (envWith (Outcome.throws (Val.exitStatus 7))) sampleRun).trace
        = 2 := by
  decide

/-- C1, amended: for a `run` processed by a loaded worker, the number of
finalizations in the handler's trace is fixed by the entry point's outcome: a
normal return gives one (`PThread.threadExit`) unless `noExitRuntime` is set, in
which case none; 'Canceled!' gives one (`PThread.threadCancel`); 'pthread_exit'
and 'SimulateInfiniteLoop' give none; any other thrown value that is not an
ExitStatus gives one (the handler's own store and wake). -/
theorem finalization_count_by_outcome (w : Worker) (env : Env) (d : Data) (p : PThreadObj)
    (v e : Val) (hcmd : d.cmd = "run") (hload : w.PThread = some p)
    (h1 : e ≠ Val.str "Canceled!") (h2 : e ≠ Val.str "SimulateInfiniteLoop")
    (h3 : e ≠ Val.str "pthread_exit") (h4 : isExitStatus e = false) :
    finalizations (onmessage w { env with entry := Outcome.returns v } d).trace
        = (if w.noExitRuntime then 0 else 1)
    ∧ finalizations
        (onmessage w { env with entry := Outcome.throws (Val.str "Canceled!") } d).trace = 1
    ∧ finalizations
        (onmessage w { env with entry := Outcome.throws (Val.str "pthread_exit") } d).trace = 0
    ∧ finalizations
        (onmessage w { env with entry := Outcome.throws (Val.str "SimulateInfiniteLoop") }
          d).trace = 0
    ∧ finalizations (onmessage w { env with entry := Outcome.throws e } d).trace = 1 := by
  refine ⟨?_, ?_, ?_, ?_, ?_⟩
  · rw [finalizations_run_loaded w _ d p hcmd hload]
    by_cases hn : w.noExitRuntime = true <;>
      simp [finalizations, runTail, runFinish, defaultFinalize, runInstall, runEnter, hn,
        isFinalization]
  · rw [finalizations_run_loaded w _ d p hcmd hload]
    simp [finalizations, runTail, runFinish, isFinalization]
  · rw [finalizations_run_loaded w _ d p hcmd hload]
    simp [finalizations, runTail, runFinish, isFinalization]
  · rw [finalizations_run_loaded w _ d p hcmd hload]
    simp [finalizations, runTail, runFinish, isFinalization]
  · rw [finalizations_run_loaded w _ d p hcmd hload]
    by_cases hp : hasProperties e = true <;>
      simp [finalizations, runTail, runFinish, catchFinalize, isFinalization, h1, h2, h3, h4,
        outerCatch, hp]

/-- Witness of the amended C1: a loaded idle worker, the sample `run` message, a
returned value 5 and the thrown string 'boom'. -/
theorem finalization_count_by_outcome_witness :
    (sampleRun.cmd = "run" ∧ idleWorker.PThread = some {}
      ∧ Val.str "boom" ≠ Val.str "Canceled!" ∧ Val.str "boom" ≠ Val.str "SimulateInfiniteLoop"
      ∧ Val.str "boom" ≠ Val.str "pthread_exit" ∧ isExitStatus (Val.str "boom") = false)
    ∧ (finalizations
          (onmessage idleWorker
            { envWith (Outcome.returns Val.undefined) with entry := Outcome.returns (Val.num 5) }
            sampleRun).trace = (if idleWorker.noExitRuntime then 0 else 1)
      ∧ finalizations
          (onmessage idleWorker
            { envWith (Outcome.returns Val.undefined) with
              entry := Outcome.throws (Val.str "Canceled!") } sampleRun).trace = 1
      ∧ finalizations
          (onmessage idleWorker
            { envWith (Outcome.returns Val.undefined) with
              entry := Outcome.throws (Val.str "pthread_exit") } sampleRun).trace = 0
      ∧ finalizations
          (onmessage idleWorker
            { envWith (Outcome.returns Val.undefined) with
              entry := Outcome.throws (Val.str "SimulateInfiniteLoop") } sampleRun).trace = 0
      ∧ finalizations
          (onmessage idleWorker
            { envWith (Outcome.returns Val.undefined) with
              entry := Outcome.throws (Val.str "boom") } sampleRun).trace = 1) :=
  ⟨⟨rfl, rfl, by decide, by decide, by decide, rfl⟩,
    finalization_count_by_outcome idleWorker (envWith (Outcome.returns Val.undefined))
      sampleRun {} (Val.num 5) (Val.str "boom") rfl rfl (by decide) (by decide) (by decide) rfl⟩

/-! ## The crash path -/

/-- Shifting right by two is division by four, rounding down. -/
theorem shiftRight_two (x : Int) : x >>> (2 : Nat) = x / 4 := by
  show Int.shiftRight x 2 = x / 4
  cases x with
  | ofNat n =>
    simp only [Int.shiftRight, Nat.shiftRight_eq_div_pow]
    norm_cast
  | negSucc n =>
    simp only [Int.shiftRight, Nat.shiftRight_eq_div_pow]
    rw [Int.negSucc_eq, Int.negSucc_eq]
    push_cast
    omega

/-- For a word-aligned address below 2^31, `wordIndex` is the index of the 32-bit
word at that byte address. -/
theorem wordIndex_of_aligned (a : Int) (h0 : 0 ≤ a) (h1 : a < 2147483648) (h4 : a % 4 = 0) :
    4 * wordIndex a = a := by
  simp only [wordIndex, toInt32, shiftRight_two]
  omega

/-- Trace and completion of a `run` whose entry point throws a value that is none
of 'Canceled!', 'SimulateInfiniteLoop', 'pthread_exit' and no ExitStatus: exit-code
store of -2, status store, wake, then whatever the outer catch does with the
value. When the value has properties, that is the two log lines and the same value
thrown again. -/
theorem crash_path_trace (w : Worker) (env : Env) (d : Data) (p : PThreadObj) (e : Val)
    (hcmd : d.cmd = "run") (hload : w.PThread = some p)
    (hentry : env.entry = Outcome.throws e)
    (h1 : e ≠ Val.str "Canceled!") (h2 : e ≠ Val.str "SimulateInfiniteLoop")
    (h3 : e ≠ Val.str "pthread_exit") (h4 : isExitStatus e = false) :
    (onmessage w env d).trace =
      runEnterTrace env d ++ runInstallTrace env d ++
        [entryCall d,
         Event.atomicsStore (wordIndex (d.threadInfoStruct + 4)) (-2),
         Event.atomicsStore (wordIndex (d.threadInfoStruct + 0)) 1,
         Event.call Fn.emscripten_futex_wake
           [Val.num (d.threadInfoStruct + 0), Val.num 0x7FFFFFFF]]
        ++ (outerCatch e).1
    ∧ (onmessage w env d).completion = (outerCatch e).2
    ∧ (∀ ev ∈ (onmessage w env d).trace, isThreadExitCall ev = false) := by
  have hx : exitCodeOf e = -2 := by
    cases e <;> simp_all [isExitStatus, exitCodeOf]
  have ht : (onmessage w env d).trace =
      runEnterTrace env d ++ runInstallTrace env d ++
        [entryCall d,
         Event.atomicsStore (wordIndex (d.threadInfoStruct + 4)) (-2),
         Event.atomicsStore (wordIndex (d.threadInfoStruct + 0)) 1,
         Event.call Fn.emscripten_futex_wake
           [Val.num (d.threadInfoStruct + 0), Val.num 0x7FFFFFFF]]
        ++ (outerCatch e).1 := by
    simp [onmessage, dispatch_run_loaded w env d p hcmd hload, hentry, runFinish, h1, h2, h3,
      h4, catchFinalize, hx, runInstall, runEnter]
  refine ⟨ht, ?_, ?_⟩
  · simp [onmessage, dispatch_run_loaded w env d p hcmd hload, hentry, runFinish, h1, h2, h3,
      h4]
  · rw [ht]
    by_cases hp : hasProperties e = true <;>
      simp [runEnterTrace, runInstallTrace, entryCall, isThreadExitCall, outerCatch, hp]

/-! ## C2 -/

/-- C2, evaluated at the failing input: the entry point throws `undefined` in a
loaded idle worker (control block at 8192). After the entry-point call the handler
stores -2 into word 2049 (byte address 8196), stores 1 into word 2048 (byte address
8192), wakes 0x7FFFFFFF waiters on 8192 and logs the caught value; then reading
`e.stack` at line 199 throws, so the handler ends with a TypeError and not with the
value the entry point threw. `PThread.threadExit` is not called. -/
theorem crash_with_undefined_eval :
    (onmessage idleWorker (envWith (Outcome.throws Val.undefined)) sampleRun).trace =
      runEnterTrace (envWith (Outcome.throws Val.undefined)) sampleRun
        ++ runInstallTrace (envWith (Outcome.throws Val.undefined)) sampleRun ++
        [entryCall sampleRun,
         Event.atomicsStore 2049 (-2),
         Event.atomicsStore 2048 1,
         Event.call Fn.emscripten_futex_wake [Val.num 8192, Val.num 0x7FFFFFFF],
         Event.consoleErrorUncaught Val.undefined]
    ∧ (onmessage idleWorker (envWith (Outcome.throws Val.undefined)) sampleRun).completion
        = Completion.threw (typeError "cannot read property stack of undefined or null")
    ∧ (onmessage idleWorker (envWith (Outcome.throws Val.undefined)) sampleRun).completion
        ≠ Completion.threw Val.undefined
    ∧ List.countP isThreadExitCall
        (onmessage idleWorker (envWith (Outcome.throws Val.undefined)) sampleRun).trace = 0 := by
  decide

/-! ## C3 -/

/-- C3, as stated, fails: with `noExitRuntime` set, an entry point that returns 5
is followed by no call of `PThread.threadExit` at all. -/
theorem normal_return_counterexample :
    List.countP isThreadExitCall
      (onmessage { idleWorker with noExitRuntime := true }
        (envWith (Outcome.returns (Val.num 5))) sampleRun).trace = 0 := by
  decide

/-- C3, amended: when the entry point of a `run` returns normally with value `v`,
the handler's effects after the entry-point call are the single call
`PThread.threadExit(v)` if `noExitRuntime` is not set, and nothing if it is set;
the handler performs no atomic store and no wake of its own and returns. -/
theorem normal_return_default_finalize (w : Worker) (env : Env) (d : Data) (p : PThreadObj)
    (v : Val) (hcmd : d.cmd = "run") (hload : w.PThread = some p)
    (hentry : env.entry = Outcome.returns v) :
    (onmessage w env d).trace =
      runEnterTrace env d ++ runInstallTrace env d ++
        entryCall d :: (if w.noExitRuntime then [] else [Event.call Fn.threadExit [v]])
    ∧ (onmessage w env d).completion = Completion.returned
    ∧ List.countP isThreadExitCall (onmessage w env d).trace
        = (if w.noExitRuntime then 0 else 1)
    ∧ (∀ ev ∈ (onmessage w env d).trace, isOwnSharedEffect ev = false) := by
  have ht : (onmessage w env d).trace =
      runEnterTrace env d ++ runInstallTrace env d ++
        entryCall d :: (if w.noExitRuntime then [] else [Event.call Fn.threadExit [v]]) := by
    simp [onmessage, dispatch_run_loaded w env d p hcmd hload, hentry, runFinish,
      defaultFinalize, runInstall, runEnter]
  refine ⟨ht, ?_, ?_, ?_⟩
  · simp [onmessage, dispatch_run_loaded w env d p hcmd hload, hentry, runFinish]
  · rw [ht]
    by_cases hn : w.noExitRuntime = true <;>
      simp [hn, runEnterTrace, runInstallTrace, entryCall, isThreadExitCall,
        List.countP_cons]
  · rw [ht]
    by_cases hn : w.noExitRuntime = true <;>
      simp [hn, runEnterTrace, runInstallTrace, entryCall, isOwnSharedEffect]

/-- Witness of the amended C3: the entry point returns 5 in a loaded idle worker. -/
theorem normal_return_default_finalize_witness :
    (sampleRun.cmd = "run" ∧ idleWorker.PThread = some {}
      ∧ (envWith (Outcome.returns (Val.num 5))).entry = Outcome.returns (Val.num 5))
    ∧ ((onmessage idleWorker (envWith (Outcome.returns (Val.num 5))) sampleRun).trace =
        runEnterTrace (envWith (Outcome.returns (Val.num 5))) sampleRun
          ++ runInstallTrace (envWith (Outcome.returns (Val.num 5))) sampleRun ++
          entryCall sampleRun ::
            (if idleWorker.noExitRuntime then []
             else [Event.call Fn.threadExit [Val.num 5]])
      ∧ (onmessage idleWorker (envWith (Outcome.returns (Val.num 5))) sampleRun).completion
          = Completion.returned
      ∧ List.countP isThreadExitCall
          (onmessage idleWorker (envWith (Outcome.returns (Val.num 5))) sampleRun).trace
          = (if idleWorker.noExitRuntime then 0 else 1)
      ∧ (∀ ev ∈ (onmessage idleWorker (envWith (Outcome.returns (Val.num 5)))
            sampleRun).trace, isOwnSharedEffect ev = false)) :=
  ⟨⟨rfl, rfl, rfl⟩,
    normal_return_default_finalize idleWorker (envWith (Outcome.returns (Val.num 5)))
      sampleRun {} (Val.num 5) rfl rfl rfl⟩

/-! ## C4 -/

/-- C4, evaluated at the failing input: the entry point throws an ExitStatus with
status 7 in a loaded idle worker. The handler stores 7 into the exit-code word,
stores the status, wakes the waiters, and then calls `PThread.threadExit` with
`undefined` (the never-assigned `result`), not with 7. -/
theorem exit_status_finalize_eval :
    (onmessage idleWorker (envWith (Outcome.throws (Val.exitStatus 7))) sampleRun).trace =
      runEnterTrace (envWith (Outcome.throws (Val.exitStatus 7))) sampleRun
        ++ runInstallTrace (envWith (Outcome.throws (Val.exitStatus 7))) sampleRun ++
        [entryCall sampleRun,
         Event.atomicsStore (wordIndex (8192 + 4)) 7,
         Event.atomicsStore (wordIndex (8192 + 0)) 1,
         Event.call Fn.emscripten_futex_wake [Val.num 8192, Val.num 0x7FFFFFFF],
         Event.call Fn.threadExit [Val.undefined]]
    ∧ (onmessage idleWorker (envWith (Outcome.throws (Val.exitStatus 7))) sampleRun).completion
        = Completion.returned := by
  decide

/-! ## C5 -/

/-- C5: wherever the call `Module['dynCall_ii'](start_routine, arg)` stands in the
trace of a `run` message with stack base `b` and stack size `s`, the events before
it include the assignments `STACKTOP = b + s` and `STACK_MAX = b`, worker-local and
on `Module`, and the calls `establishStackSpace(b, b + s)` and
`establishStackSpaceInJsModule(b, b + s)`; no event after it installs stack
bounds, and the handler ends with these values in place. -/
theorem stack_installed_before_entry (w : Worker) (env : Env) (d : Data)
    (pre post : List Event) (hcmd : d.cmd = "run")
    (hsplit : (onmessage w env d).trace = pre ++ entryCall d :: post) :
    (Event.assign Var.STACKTOP (d.stackBase + d.stackSize) ∈ pre
      ∧ Event.assign Var.STACK_MAX d.stackBase ∈ pre
      ∧ Event.assignModule Var.STACKTOP (d.stackBase + d.stackSize) ∈ pre
      ∧ Event.assignModule Var.STACK_MAX d.stackBase ∈ pre
      ∧ Event.call Fn.establishStackSpace
          [Val.num d.stackBase, Val.num (d.stackBase + d.stackSize)] ∈ pre
      ∧ Event.call Fn.establishStackSpaceInJsModule
          [Val.num d.stackBase, Val.num (d.stackBase + d.stackSize)] ∈ pre)
    ∧ (∀ ev ∈ post, isStackInstall ev = false)
    ∧ ((onmessage w env d).worker.STACKTOP = d.stackBase + d.stackSize
      ∧ (onmessage w env d).worker.STACK_MAX = d.stackBase
      ∧ (onmessage w env d).worker.Module.STACKTOP = some (d.stackBase + d.stackSize)
      ∧ (onmessage w env d).worker.Module.STACK_MAX = some d.stackBase) := by
  cases hp : w.PThread with
  | none =>
    exfalso
    have hmem : entryCall d ∈ (onmessage w env d).trace := by
      rw [hsplit]; simp
    simp [onmessage, dispatch_run_unloaded w env d hcmd hp, runEnterTrace, entryCall,
      outerCatch, typeError, hasProperties] at hmem
  | some p =>
    obtain ⟨hw, ht, _⟩ := onmessage_run_loaded w env d p hcmd hp
    rw [ht] at hsplit
    obtain ⟨hpre, _, hpost⟩ :=
      (List.append_cons_inj_of_not_mem (entryCall_not_mem_prologue env d)
        (entryCall_not_mem_runTail (runInstall w env d) env.entry d)).1 hsplit
    subst hpre hpost
    refine ⟨?_, runTail_not_stackInstall _ _, ?_⟩
    · simp [runEnterTrace, runInstallTrace]
    · simp [hw, runInstall, runEnter]

/-- Witness of C5: the sample `run` in a loaded idle worker whose entry point
returns 5. -/
theorem stack_installed_before_entry_witness :
    (sampleRun.cmd = "run"
      ∧ (onmessage idleWorker (envWith (Outcome.returns (Val.num 5))) sampleRun).trace =
          (runEnterTrace (envWith (Outcome.returns (Val.num 5))) sampleRun
            ++ runInstallTrace (envWith (Outcome.returns (Val.num 5))) sampleRun)
          ++ entryCall sampleRun :: [Event.call Fn.threadExit [Val.num 5]])
    ∧ Event.assign Var.STACKTOP 5096 ∈
        runEnterTrace (envWith (Outcome.returns (Val.num 5))) sampleRun
          ++ runInstallTrace (envWith (Outcome.returns (Val.num 5))) sampleRun
    ∧ (∀ ev ∈ [Event.call Fn.threadExit [Val.num 5]], isStackInstall ev = false)
    ∧ (onmessage idleWorker (envWith (Outcome.returns (Val.num 5))) sampleRun).worker.STACK_MAX
        = 1000 :=
  have h := stack_installed_before_entry idleWorker (envWith (Outcome.returns (Val.num 5)))
    sampleRun
    (runEnterTrace (envWith (Outcome.returns (Val.num 5))) sampleRun
      ++ runInstallTrace (envWith (Outcome.returns (Val.num 5))) sampleRun)
    [Event.call Fn.threadExit [Val.num 5]] rfl (by decide)
  ⟨⟨rfl, by decide⟩, h.1.1, h.2.1, h.2.2.2.1⟩

/-! ## C6 -/

/-- C6, as stated, fails: after the sample `run` (stack base 1000, size 4096) the
worker has `STACK_BASE = STACKTOP = 5096` and `STACK_MAX = 1000`, so
`STACKTOP - STACK_BASE` is 0, not 4096, and `STACK_MAX` differs from `STACK_BASE`. -/
theorem stack_fields_counterexample :
    (onmessage idleWorker (envWith (Outcome.returns (Val.num 5))) sampleRun).worker.STACKTOP
      - (onmessage idleWorker (envWith (Outcome.returns (Val.num 5))) sampleRun).worker.STACK_BASE
      ≠ sampleRun.stackSize
    ∧ (onmessage idleWorker (envWith (Outcome.returns (Val.num 5))) sampleRun).worker.STACK_MAX
      ≠ (onmessage idleWorker (envWith (Outcome.returns (Val.num 5)))
          sampleRun).worker.STACK_BASE := by
  decide

/-- C6, amended: after a `run` message with stack base `b` and stack size `s` is
processed by a loaded worker, the worker's recorded fields are
`STACK_BASE = STACKTOP = b + s` and `STACK_MAX = b`, so `STACKTOP - STACK_MAX = s`
and `STACK_MAX` is the message's `stackBase`. -/
theorem stack_fields_after_run (w : Worker) (env : Env) (d : Data) (p : PThreadObj)
    (hcmd : d.cmd = "run") (hload : w.PThread = some p) :
    (onmessage w env d).worker.STACK_BASE = d.stackBase + d.stackSize
    ∧ (onmessage w env d).worker.STACKTOP = d.stackBase + d.stackSize
    ∧ (onmessage w env d).worker.STACK_MAX = d.stackBase
    ∧ (onmessage w env d).worker.STACKTOP - (onmessage w env d).worker.STACK_MAX
        = d.stackSize := by
  rw [(onmessage_run_loaded w env d p hcmd hload).1]
  simp [runInstall, runEnter]

/-- Witness of the amended C6: the sample `run` in a loaded idle worker. -/
theorem stack_fields_after_run_witness :
    (sampleRun.cmd = "run" ∧ idleWorker.PThread = some {})
    ∧ ((onmessage idleWorker (envWith (Outcome.returns (Val.num 5))) sampleRun).worker.STACK_BASE
        = sampleRun.stackBase + sampleRun.stackSize
      ∧ (onmessage idleWorker (envWith (Outcome.returns (Val.num 5))) sampleRun).worker.STACKTOP
        = sampleRun.stackBase + sampleRun.stackSize
      ∧ (onmessage idleWorker (envWith (Outcome.returns (Val.num 5))) sampleRun).worker.STACK_MAX
        = sampleRun.stackBase
      ∧ (onmessage idleWorker (envWith (Outcome.returns (Val.num 5))) sampleRun).worker.STACKTOP
        - (onmessage idleWorker (envWith (Outcome.returns (Val.num 5)))
            sampleRun).worker.STACK_MAX
        = sampleRun.stackSize) :=
  ⟨⟨rfl, rfl⟩,
    stack_fields_after_run idleWorker (envWith (Outcome.returns (Val.num 5))) sampleRun {}
      rfl rfl⟩

/-! ## C7 -/

/-- C7, as stated, fails. A loaded worker that already hosts thread 3 does not
ignore a `run` message: its worker-local state changes and the entry point is
invoked. A worker that was never loaded does not ignore it either: it overwrites
`threadInfoStruct` and ends by throwing. -/
theorem run_not_idle_counterexample :
    ((onmessage hostingWorker (envWith (Outcome.returns (Val.num 5))) sampleRun).worker
        ≠ hostingWorker
      ∧ entryCall sampleRun ∈
          (onmessage hostingWorker (envWith (Outcome.returns (Val.num 5))) sampleRun).trace)
    ∧ ((onmessage {} (envWith (Outcome.returns (Val.num 5))) sampleRun).worker.threadInfoStruct
        = 8192
      ∧ (onmessage {} (envWith (Outcome.returns (Val.num 5))) sampleRun).completion
        ≠ Completion.returned) := by
  decide

/-- C7, amended: the `run` branch has no state guard. In a worker that was never
loaded, a `run` message overwrites the clock offset and `threadInfoStruct` with the
message's values and leaves the other worker-local variables alone, performs no
store and no wake, does not invoke the entry point, and ends by throwing the
TypeError of the missing module function, after logging it. In a loaded worker,
whether or not it already hosts a thread, the message is processed in full:
`threadInfoStruct`, `selfThreadId`, `parentThreadId`, the stack bounds and the
clock offset take the message's values and the entry point is invoked. -/
theorem run_without_state_guard (w : Worker) (env : Env) (d : Data) (hcmd : d.cmd = "run") :
    (w.PThread = none →
      (onmessage w env d).worker =
          { w with
            performance_now_clock_drift := env.now - d.time
            threadInfoStruct := d.threadInfoStruct }
        ∧ (∀ ev ∈ (onmessage w env d).trace, isOwnSharedEffect ev = false)
        ∧ entryCall d ∉ (onmessage w env d).trace
        ∧ (onmessage w env d).completion =
            Completion.threw (typeError "Module.__register_pthread_ptr is not a function"))
    ∧ (∀ p, w.PThread = some p →
        (onmessage w env d).worker.threadInfoStruct = d.threadInfoStruct
        ∧ (onmessage w env d).worker.selfThreadId = d.selfThreadId
        ∧ (onmessage w env d).worker.parentThreadId = d.parentThreadId
        ∧ (onmessage w env d).worker.STACK_BASE = d.stackBase + d.stackSize
        ∧ (onmessage w env d).worker.STACKTOP = d.stackBase + d.stackSize
        ∧ (onmessage w env d).worker.STACK_MAX = d.stackBase
        ∧ (onmessage w env d).worker.performance_now_clock_drift = env.now - d.time
        ∧ entryCall d ∈ (onmessage w env d).trace) := by
  constructor
  · intro hp
    simp [onmessage, dispatch_run_unloaded w env d hcmd hp, runEnter, runEnterTrace,
      isOwnSharedEffect, entryCall, outerCatch, typeError, hasProperties]
  · intro p hp
    obtain ⟨hw, ht, _⟩ := onmessage_run_loaded w env d p hcmd hp
    rw [hw, ht]
    simp [runInstall, runEnter]

/-- Witness of the amended C7: the sample `run` sent to a worker that was never
loaded, and to a loaded worker that already hosts thread 3. -/
theorem run_without_state_guard_witness :
    sampleRun.cmd = "run"
    ∧ (onmessage {} (envWith (Outcome.returns (Val.num 5))) sampleRun).completion =
        Completion.threw (typeError "Module.__register_pthread_ptr is not a function")
    ∧ (onmessage hostingWorker (envWith (Outcome.returns (Val.num 5)))
        sampleRun).worker.threadInfoStruct = sampleRun.threadInfoStruct
    ∧ (onmessage hostingWorker (envWith (Outcome.returns (Val.num 5)))
        sampleRun).worker.selfThreadId = sampleRun.selfThreadId
    ∧ entryCall sampleRun ∈
        (onmessage hostingWorker (envWith (Outcome.returns (Val.num 5))) sampleRun).trace :=
  have h := (run_without_state_guard hostingWorker (envWith (Outcome.returns (Val.num 5)))
    sampleRun rfl).2 {} rfl
  have h0 := (run_without_state_guard {} (envWith (Outcome.returns (Val.num 5)))
    sampleRun rfl).1 rfl
  ⟨rfl, h0.2.2.2, h.1, h.2.1, h.2.2.2.2.2.2.2⟩

/-! ## C8 -/

/-- C8, as stated, fails: after a `run` whose entry point unwinds with
'SimulateInfiniteLoop' the handler has returned, and the worker still has
`threadInfoStruct = 8192` and `selfThreadId = 7`; a following `processThreadQueue`
message takes the hosted-thread branch. -/
theorem idle_after_run_counterexample :
    (onmessage idleWorker (envWith (Outcome.throws (Val.str "SimulateInfiniteLoop")))
        sampleRun).completion = Completion.returned
    ∧ (onmessage idleWorker (envWith (Outcome.throws (Val.str "SimulateInfiniteLoop")))
        sampleRun).worker.threadInfoStruct ≠ 0
    ∧ (onmessage idleWorker (envWith (Outcome.throws (Val.str "SimulateInfiniteLoop")))
        sampleRun).worker.selfThreadId ≠ 0
    ∧ (onmessage
        (onmessage idleWorker (envWith (Outcome.throws (Val.str "SimulateInfiniteLoop")))
          sampleRun).worker
        (envWith (Outcome.returns (Val.num 0))) { cmd := "processThreadQueue" }).trace
        = [Event.call Fn.emscripten_current_thread_process_queued_calls []] := by
  decide

/-- C8, amended: the handler never resets the worker. When the entry point of a
`run` unwinds with 'SimulateInfiniteLoop', the handler returns with no
finalization in its trace and with `threadInfoStruct` and `selfThreadId` equal to
the message's values; if the message's `threadInfoStruct` is non-zero, a following
`processThreadQueue` message drains the queue of the hosted thread and a following
`cancel` message calls `PThread.threadCancel` when cancellation is enabled. -/
theorem thread_stays_hosted_after_unwind (w : Worker) (env env2 : Env) (d d2 : Data)
    (p : PThreadObj) (hcmd : d.cmd = "run") (hload : w.PThread = some p)
    (hentry : env.entry = Outcome.throws (Val.str "SimulateInfiniteLoop"))
    (hhost : d.threadInfoStruct ≠ 0) :
    (onmessage w env d).completion = Completion.returned
    ∧ finalizations (onmessage w env d).trace = 0
    ∧ (onmessage w env d).worker.threadInfoStruct = d.threadInfoStruct
    ∧ (onmessage w env d).worker.selfThreadId = d.selfThreadId
    ∧ (d2.cmd = "processThreadQueue" → d2.target ≠ some "setimmediate" →
        (onmessage (onmessage w env d).worker env2 d2).trace
          = [Event.call Fn.emscripten_current_thread_process_queued_calls []])
    ∧ (d2.cmd = "cancel" → p.thisThreadCancelState = 0 →
        (onmessage (onmessage w env d).worker env2 d2).trace
          = [Event.call Fn.threadCancel []]) := by
  obtain ⟨hw, _, hc⟩ := onmessage_run_loaded w env d p hcmd hload
  refine ⟨?_, ?_, ?_, ?_, ?_, ?_⟩
  · rw [hc, hentry]
    simp [runEnd, runFinish]
  · rw [finalizations_run_loaded w env d p hcmd hload, hentry]
    simp [finalizations, runTail, runFinish]
  · rw [hw]
    simp [runInstall, runEnter]
  · rw [hw]
    simp [runInstall, runEnter]
  · intro h2 ht
    rw [hw]
    simp [onmessage, dispatch, h2, ht, processThreadQueueBranch, runInstall, runEnter, hhost,
      hload]
  · intro h2 hs
    rw [hw]
    simp [onmessage, dispatch, h2, cancelBranch, runInstall, runEnter, hhost, hload, hs]

/-- Witness of the amended C8: the sample `run` in a loaded idle worker, followed by
a `processThreadQueue` message. -/
theorem thread_stays_hosted_after_unwind_witness :
    (sampleRun.cmd = "run" ∧ idleWorker.PThread = some {}
      ∧ (envWith (Outcome.throws (Val.str "SimulateInfiniteLoop"))).entry
          = Outcome.throws (Val.str "SimulateInfiniteLoop")
      ∧ sampleRun.threadInfoStruct ≠ 0)
    ∧ (onmessage idleWorker (envWith (Outcome.throws (Val.str "SimulateInfiniteLoop")))
        sampleRun).worker.threadInfoStruct = sampleRun.threadInfoStruct
    ∧ (onmessage
        (onmessage idleWorker (envWith (Outcome.throws (Val.str "SimulateInfiniteLoop")))
          sampleRun).worker
        (envWith (Outcome.returns (Val.num 0))) { cmd := "processThreadQueue" }).trace
        = [Event.call Fn.emscripten_current_thread_process_queued_calls []] :=
  have h := thread_stays_hosted_after_unwind idleWorker
    (envWith (Outcome.throws (Val.str "SimulateInfiniteLoop")))
    (envWith (Outcome.returns (Val.num 0))) sampleRun { cmd := "processThreadQueue" } {}
    rfl rfl rfl (by decide)
  ⟨⟨rfl, rfl, rfl, by decide⟩, h.2.2.1, h.2.2.2.2.1 rfl (by decide)⟩

/-! ## C9 -/

/-- C9: on a `cancel` message the handler calls `PThread.threadCancel` exactly when
`threadInfoStruct` is non-zero and `PThread.thisThreadCancelState` is 0; when
`threadInfoStruct` is 0, loaded or not, the handler changes no worker-local
variable, has an empty effect trace and returns. -/
theorem cancel_iff_hosted_and_enabled (w : Worker) (env : Env) (d : Data)
    (hcmd : d.cmd = "cancel") :
    ((∃ a, Event.call Fn.threadCancel a ∈ (onmessage w env d).trace) ↔
      (w.threadInfoStruct ≠ 0 ∧ ∃ p, w.PThread = some p ∧ p.thisThreadCancelState = 0))
    ∧ (w.threadInfoStruct = 0 →
        onmessage w env d = { worker := w, trace := [], completion := Completion.returned }) := by
  have hd : dispatch w env d = cancelBranch w := by
    simp [dispatch, hcmd]
  constructor
  · by_cases h0 : w.threadInfoStruct = 0
    · simp [onmessage, hd, cancelBranch, h0]
    · cases hp : w.PThread with
      | none =>
        simp [onmessage, hd, cancelBranch, h0, hp, outerCatch, typeError, hasProperties]
      | some p =>
        by_cases hc : p.thisThreadCancelState = 0 <;>
          simp [onmessage, hd, cancelBranch, h0, hp, hc]
  · intro h0
    simp [onmessage, hd, cancelBranch, h0]

/-- Witness of C9: a `cancel` message sent to a loaded worker that hosts a thread
with cancellation enabled. -/
theorem cancel_iff_hosted_and_enabled_witness :
    ({ cmd := "cancel" } : Data).cmd = "cancel"
    ∧ (∃ a, Event.call Fn.threadCancel a ∈
        (onmessage hostingWorker (envWith (Outcome.returns (Val.num 0)))
          { cmd := "cancel" }).trace) :=
  ⟨rfl,
    ((cancel_iff_hosted_and_enabled hostingWorker (envWith (Outcome.returns (Val.num 0)))
      { cmd := "cancel" } rfl).1).2 ⟨by decide, {}, rfl, rfl⟩⟩

/-! ## C10 -/

/-- C10: a message whose command is none of 'load', 'objectTransfer', 'run',
'cancel' and 'processThreadQueue' leaves every worker-local variable as it was,
makes the handler return without throwing, and has as its only effects either
nothing (target 'setimmediate') or the three log lines of the unknown-command
branch; in particular no store and no wake. -/
theorem unknown_command_frame (w : Worker) (env : Env) (d : Data)
    (h1 : d.cmd ≠ "load") (h2 : d.cmd ≠ "objectTransfer") (h3 : d.cmd ≠ "run")
    (h4 : d.cmd ≠ "cancel") (h5 : d.cmd ≠ "processThreadQueue") :
    (onmessage w env d).worker = w
    ∧ (onmessage w env d).completion = Completion.returned
    ∧ ((onmessage w env d).trace = []
      ∨ (onmessage w env d).trace =
          [Event.consoleError ("worker.js received unknown command " ++ d.cmd),
           Event.consoleErrorStack, Event.consoleErrorData])
    ∧ (∀ ev ∈ (onmessage w env d).trace, isOwnSharedEffect ev = false) := by
  by_cases ht : d.target = some "setimmediate"
  · simp [onmessage, dispatch, h1, h2, h3, h4, h5, ht]
  · simp [onmessage, dispatch, h1, h2, h3, h4, h5, ht, unknownBranch, threadPrintErr,
      isOwnSharedEffect, String.intercalate, String.intercalate.go]

/-- Witness of C10: the unknown command 'ping' sent to a worker that hosts a
thread. -/
theorem unknown_command_frame_witness :
    (({ cmd := "ping" } : Data).cmd ≠ "load"
      ∧ ({ cmd := "ping" } : Data).cmd ≠ "objectTransfer"
      ∧ ({ cmd := "ping" } : Data).cmd ≠ "run"
      ∧ ({ cmd := "ping" } : Data).cmd ≠ "cancel"
      ∧ ({ cmd := "ping" } : Data).cmd ≠ "processThreadQueue")
    ∧ (onmessage hostingWorker (envWith (Outcome.returns (Val.num 0)))
        { cmd := "ping" }).worker = hostingWorker
    ∧ (onmessage hostingWorker (envWith (Outcome.returns (Val.num 0)))
        { cmd := "ping" }).completion = Completion.returned :=
  have h := unknown_command_frame hostingWorker (envWith (Outcome.returns (Val.num 0)))
    { cmd := "ping" } (by decide) (by decide) (by decide) (by decide) (by decide)
  ⟨⟨by decide, by decide, by decide, by decide, by decide⟩, h.1, h.2.1⟩

end PthreadWorker
